import Mathlib

/-!
Verification development for the smartshell CLI helper (src/main.rs).

The program is shallowly embedded: every definition below is a direct
translation of a function or code region of `src/main.rs`, kept executable.
String predicates used by the source (Rust `str::starts_with`,
`str::contains`) are modelled on `List Char` through `String.data`.
-/

namespace SmartShell

/-- Boolean prefix test on character lists: `isPre pat s` holds when `pat`
is an initial segment of `s`.  Models Rust `str::starts_with`. -/
def isPre : List Char → List Char → Bool
  | [], _ => true
  | _ :: _, [] => false
  | c :: cs, d :: ds => c == d && isPre cs ds

/-- Boolean substring test on character lists: `hasSub pat s` holds when
`pat` occurs contiguously inside `s`.  Models Rust `str::contains`. -/
def hasSub (pat : List Char) : List Char → Bool
  | [] => isPre pat []
  | c :: rest => isPre pat (c :: rest) || hasSub pat rest

/-- Split a character list at the first occurrence of `pat`, returning the
part before the occurrence and the part after it. -/
def splitAtSub (pat : List Char) : List Char → Option (List Char × List Char)
  | [] => if isPre pat [] then some ([], []) else none
  | c :: rest =>
    if isPre pat (c :: rest) then some ([], List.drop pat.length (c :: rest))
    else
      match splitAtSub pat rest with
      | some pr => some (c :: pr.1, pr.2)
      | none => none

lemma isPre_append_self : ∀ (p b : List Char), isPre p (p ++ b) = true
  | [], _ => rfl
  | c :: cs, b => by simp [isPre, isPre_append_self cs b]

lemma isPre_eq_take : ∀ (p l : List Char), isPre p l = true → p = l.take p.length
  | [], _, _ => rfl
  | c :: cs, [], h => by simp [isPre] at h
  | c :: cs, d :: ds, h => by
    simp only [isPre, Bool.and_eq_true, beq_iff_eq] at h
    simp only [List.length_cons, List.take_succ_cons, h.1]
    exact congrArg (d :: ·) (isPre_eq_take cs ds h.2)

lemma isPre_take_of_isPre : ∀ (m : Nat) (p l : List Char),
    isPre p l = true → isPre (p.take m) l = true
  | _, [], l, _ => by simp [List.take_nil, isPre]
  | 0, _ :: _, _, _ => rfl
  | m + 1, c :: cs, [], h => by simp [isPre] at h
  | m + 1, c :: cs, d :: ds, h => by
    simp only [isPre, Bool.and_eq_true, beq_iff_eq] at h
    simp only [List.take_succ_cons, isPre, Bool.and_eq_true, beq_iff_eq]
    exact ⟨h.1, isPre_take_of_isPre m cs ds h.2⟩

lemma isPre_append_left : ∀ (p a x : List Char), p.length ≤ a.length →
    isPre p (a ++ x) = true → isPre p a = true
  | [], _, _, _, _ => rfl
  | c :: cs, [], x, hlen, _ => by simp at hlen
  | c :: cs, d :: ds, x, hlen, h => by
    simp only [List.cons_append, isPre, Bool.and_eq_true, beq_iff_eq] at h ⊢
    exact ⟨h.1, isPre_append_left cs ds x (Nat.le_of_succ_le_succ hlen) h.2⟩

lemma isPre_chars : ∀ (p l : List Char), isPre p l = true → ∀ c ∈ p, c ∈ l
  | [], _, _, c, hc => absurd hc (List.not_mem_nil c)
  | p :: ps, [], h, _, _ => by simp [isPre] at h
  | p :: ps, d :: ds, h, c, hc => by
    simp only [isPre, Bool.and_eq_true, beq_iff_eq] at h
    rcases List.mem_cons.mp hc with hceq | hcmem
    · exact hceq ▸ h.1 ▸ List.mem_cons_self _ _
    · exact List.mem_cons_of_mem _ (isPre_chars ps ds h.2 c hcmem)

lemma isPre_take_self : ∀ (n : Nat) (l : List Char), isPre (l.take n) l = true
  | 0, _ => by simp [List.take_zero, isPre]
  | _ + 1, [] => rfl
  | n + 1, c :: cs => by
    simp only [List.take_succ_cons, isPre, Bool.and_eq_true, beq_iff_eq,
      beq_self_eq_true, true_and]
    exact isPre_take_self n cs

lemma take_append_split : ∀ (a b : List Char) (n : Nat),
    (a ++ b).take n = a.take n ++ b.take (n - a.length)
  | [], _, _ => by simp
  | _ :: _, _, 0 => by simp
  | c :: cs, b, n + 1 => by
    simp only [List.cons_append, List.take_succ_cons, List.length_cons,
      take_append_split cs b n, Nat.succ_sub_succ]

lemma drop_len_append : ∀ (a b : List Char), (a ++ b).drop a.length = b
  | [], _ => rfl
  | _ :: cs, b => drop_len_append cs b

lemma hasSub_of_isPre_suffix : ∀ (p a1 a2 : List Char),
    isPre p a2 = true → hasSub p (a1 ++ a2) = true
  | p, [], [], h => by
    cases p with
    | nil => rfl
    | cons c cs => simp [isPre] at h
  | p, [], c :: rest, h => by simp [hasSub, h]
  | p, c :: a1', a2, h => by
    simp only [List.cons_append, hasSub, Bool.or_eq_true]
    exact Or.inr (hasSub_of_isPre_suffix p a1' a2 h)

lemma hasSub_false_of_char : ∀ (pat l : List Char) (c : Char),
    c ∈ pat → c ∉ l → hasSub pat l = false
  | pat, [], c, hc, _ => by
    cases pat with
    | nil => exact absurd hc (List.not_mem_nil c)
    | cons p ps => rfl
  | pat, d :: ds, c, hc, hl => by
    simp only [hasSub, Bool.or_eq_false_iff]
    constructor
    · cases h : isPre pat (d :: ds) with
      | false => rfl
      | true => exact absurd (isPre_chars pat (d :: ds) h c hc) hl
    · exact hasSub_false_of_char pat ds c hc
        (fun hmem => hl (List.mem_cons_of_mem d hmem))

lemma hasSub_append_no_head (c0 : Char) (p' : List Char) :
    ∀ (a b : List Char), c0 ∉ a →
      hasSub (c0 :: p') (a ++ b) = hasSub (c0 :: p') b
  | [], _, _ => rfl
  | d :: a', b, h => by
    have hne : (c0 == d) = false := by
      cases hcd : c0 == d with
      | false => rfl
      | true => exact absurd (beq_iff_eq.mp hcd ▸ List.mem_cons_self c0 a') h
    simp only [List.cons_append, hasSub, isPre, hne, Bool.false_and,
      Bool.false_or]
    exact hasSub_append_no_head c0 p' a' b
      (fun hmem => h (List.mem_cons_of_mem d hmem))

/-- The central splitting fact: splitting at the first occurrence of `pat`
recovers the two sides of an explicit `a ++ pat ++ b` decomposition,
provided no occurrence of `pat` starts strictly before the marked one. -/
lemma splitAtSub_boundary (pat : List Char) :
    ∀ (a b : List Char),
      (∀ a1 a2, a = a1 ++ a2 → a2 ≠ [] → isPre pat (a2 ++ (pat ++ b)) = false) →
      splitAtSub pat (a ++ (pat ++ b)) = some (a, b)
  | [], b, _ => by
    simp only [List.nil_append]
    cases pat with
    | nil =>
      cases b with
      | nil => rfl
      | cons c rest => simp [splitAtSub, isPre]
    | cons p ps =>
      have hp : isPre (p :: ps) (p :: (ps ++ b)) = true := by
        simpa only [List.cons_append] using isPre_append_self (p :: ps) b
      simp only [List.cons_append]
      simp [splitAtSub, hp, drop_len_append]
  | c :: a', b, h => by
    have hfalse : isPre pat ((c :: a') ++ (pat ++ b)) = false :=
      h [] (c :: a') rfl (List.cons_ne_nil c a')
    have ih : splitAtSub pat (a' ++ (pat ++ b)) = some (a', b) :=
      splitAtSub_boundary pat a' b
        (fun a1 a2 hsplit hne => h (c :: a1) a2 (by rw [hsplit]; rfl) hne)
    simp only [List.cons_append] at hfalse ⊢
    simp [splitAtSub, hfalse, ih]

/-- No occurrence of `pat` can start inside `s` when (i) the prefix
`pat.take m` does not occur in `s` and (ii) `pat` does not overlap itself
at any shift below `m`. -/
lemma no_straddle (pat : List Char) (m : Nat) (s b : List Char)
    (hm2 : m ≤ pat.length)
    (hD : ∀ k, 1 ≤ k → k < m → pat.drop k ≠ pat.take (pat.length - k))
    (hs : hasSub (pat.take m) s = false) :
    ∀ a1 a2, s = a1 ++ a2 → a2 ≠ [] → isPre pat (a2 ++ (pat ++ b)) = false := by
  intro a1 a2 hsplit hne
  cases htrue : isPre pat (a2 ++ (pat ++ b)) with
  | false => rfl
  | true =>
    exfalso
    have hkpos : 0 < a2.length := List.length_pos.mpr hne
    rcases le_or_lt m a2.length with hk | hk
    · -- the occurrence covers at least `pat.take m`, so `pat.take m`
      -- would be an infix of `s`
      have h1 : isPre (pat.take m) (a2 ++ (pat ++ b)) = true :=
        isPre_take_of_isPre m pat _ htrue
      have hlen : (pat.take m).length ≤ a2.length := by
        rw [List.length_take]
        exact le_trans (Nat.min_le_left m pat.length) hk
      have h2 : isPre (pat.take m) a2 = true :=
        isPre_append_left _ a2 _ hlen h1
      have h3 : hasSub (pat.take m) s = true := by
        rw [hsplit]; exact hasSub_of_isPre_suffix _ a1 a2 h2
      rw [hs] at h3; exact Bool.false_ne_true h3
    · -- the occurrence starts fewer than `m` characters before the marked
      -- one, forcing a self-overlap of `pat` that `hD` rules out
      have hkey : pat = (a2 ++ (pat ++ b)).take pat.length :=
        isPre_eq_take pat _ htrue
      have hk2 : a2.length ≤ pat.length := le_of_lt (lt_of_lt_of_le hk hm2)
      have hz : pat.length - a2.length - pat.length = 0 :=
        Nat.sub_eq_zero_of_le (Nat.sub_le _ _)
      have h4 : (a2 ++ (pat ++ b)).take pat.length =
          a2 ++ pat.take (pat.length - a2.length) := by
        rw [take_append_split, List.take_of_length_le hk2, take_append_split,
          hz, List.take_zero, List.append_nil]
      have hdecomp : pat = a2 ++ pat.take (pat.length - a2.length) :=
        hkey.trans h4
      have hdrop : pat.drop a2.length = pat.take (pat.length - a2.length) := by
        conv_lhs => rw [hdecomp]
        exact drop_len_append a2 _
      exact hD a2.length hkpos hk hdrop

/-! ## String-level wrappers for the Rust predicates -/

/-- Rust `str::starts_with`: `e.starts_with(pat)`. -/
def strStartsWith (s pat : String) : Bool := isPre pat.data s.data

/-- Rust `str::contains`: `e.contains(pat)`. -/
def strContains (s pat : String) : Bool := hasSub pat.data s.data

/-! ## JSON model

`serde_json::Value`, restricted to what the response-handling code touches:
indexing with a string key (`value["k"]`, which yields `Null` off objects),
`as_str` and `as_bool`. -/

inductive Json where
  | null
  | bool (b : Bool)
  | num (n : Int)
  | str (s : String)
  | arr (elems : List Json)
  | obj (fields : List (String × Json))

/-- `value.get(key)` / `value["key"]` on a JSON value: some field value when
`value` is an object containing the key, otherwise none (serde yields
`Null`, whose `as_str`/`as_bool` are `None`, so `none` is the faithful
collapse). -/
def Json.getField : Json → String → Option Json
  | .obj fields, key => lookupField key fields
  | _, _ => none
where lookupField (key : String) : List (String × Json) → Option Json
  | [] => none
  | (k, v) :: rest => if k = key then some v else lookupField key rest

/-- `Value::as_str`. -/
def Json.asStr : Json → Option String
  | .str s => some s
  | _ => none

/-- `Value::as_bool`. -/
def Json.asBool : Json → Option Bool
  | .bool b => some b
  | _ => none

/-- `Result<String, String>` as returned by the provider clients and the
orchestrator: `ok` is a successful model result, `err` a failure message. -/
inductive CallResult where
  | ok (text : String)
  | err (message : String)
deriving DecidableEq

/-- The `result` extraction shared shape:
`parsed["result"].as_str().unwrap_or("")` (main.rs:164 and main.rs:201). -/
def extractedResult (payload : Json) : String :=
  ((payload.getField "result").bind Json.asStr).getD ""

/-- The `error` extraction shared shape:
`parsed["error"].as_bool().unwrap_or(false)` (main.rs:165 and main.rs:202). -/
def extractedError (payload : Json) : Bool :=
  ((payload.getField "error").bind Json.asBool).getD false

/-- Tail of `openai_call` (main.rs:164-170): extract `(result, error)` from
the re-parsed message-content JSON and turn it into the call's outcome. -/
def openai_extract (parsed : Json) : CallResult :=
  let result := ((parsed.getField "result").bind Json.asStr).getD ""
  let is_error := ((parsed.getField "error").bind Json.asBool).getD false
  if is_error then .err result else .ok result

/-- Tail of `claude_call` (main.rs:201-207): extract `(result, error)` from
the tool call's `input` object and turn it into the call's outcome. -/
def claude_extract (input : Json) : CallResult :=
  let result := ((input.getField "result").bind Json.asStr).getD ""
  let is_error := ((input.getField "error").bind Json.asBool).getD false
  if is_error then .err result else .ok result

/-! ## Async call orchestrator (main.rs:93-132) -/

/-- One observation of `rx.try_recv()` in the spinner loop. -/
inductive PollEvent where
  | empty
  | value (r : CallResult)
  | disconnected

/-- The spinner polling loop of `llm_api_call` (main.rs:112-131), abstracted
over the sequence of `try_recv` observations: a delivered value is returned
as-is; a disconnection yields `Err("Background thread failed")`; `Empty`
spins.  `none` models a trace on which the loop has not yet returned. -/
def pollChannel : List PollEvent → Option CallResult
  | [] => none
  | .value r :: _ => some r
  | .disconnected :: _ => some (.err "Background thread failed")
  | .empty :: rest => pollChannel rest

/-- Provider selection inside the worker closure (main.rs:102-106), with the
two provider calls' outcomes supplied as parameters (they are network
effects). -/
def selectProviderResult (provider : String) (openaiR claudeR : CallResult) :
    CallResult :=
  if provider = "openai" then openaiR
  else if provider = "claude" then claudeR
  else .err ("Unknown provider: " ++ provider)

/-! ## Outcome dispatcher (main.rs:237-257 and main.rs:270-280) -/

/-- What one dispatch decision produces: the line printed to stdout, the
`(cmd, query, result)` triple passed to `log_entry` (none when `log_entry`
is not called), and the process exit code. -/
structure Outcome where
  stdoutLine : String
  logged : Option (String × String × String)
  exitCode : Nat
deriving DecidableEq

/-- The error-message classification of main.rs:247: infrastructure errors
start with one of five fixed prefixes or contain `"API key"`. -/
def isInfraError (e : String) : Bool :=
  strStartsWith e "Request failed" || strStartsWith e "API error" ||
  strStartsWith e "Invalid response" || strStartsWith e "Missing" ||
  strStartsWith e "Failed to parse" || strContains e "API key"

/-- The `complete` arm's match on the orchestrator result (main.rs:237-257). -/
def completeDispatch (query : String) (r : CallResult) : Outcome :=
  match r with
  | .ok text =>
    if strStartsWith text "#" then
      { stdoutLine := text, logged := some ("complete", query, text), exitCode := 1 }
    else
      { stdoutLine := text, logged := some ("complete", query, text), exitCode := 0 }
  | .err e =>
    if isInfraError e then
      { stdoutLine := e, logged := some ("complete", query, "ERROR: " ++ e), exitCode := 1 }
    else
      { stdoutLine := "# " ++ e, logged := some ("complete", query, "REFUSED: " ++ e), exitCode := 2 }

/-- The `explain` arm's match on the orchestrator result (main.rs:270-280). -/
def explainDispatch (buffer : String) (r : CallResult) : Outcome :=
  match r with
  | .ok text =>
    { stdoutLine := "# " ++ text, logged := some ("explain", buffer, text), exitCode := 0 }
  | .err e =>
    { stdoutLine := e, logged := some ("explain", buffer, "ERROR: " ++ e), exitCode := 1 }

/-! ## Prompt builder and the `complete` front end (main.rs:215-257) -/

/-- Rust `str::trim` on the character-list view: drop whitespace from both
ends. -/
def trimChars (l : List Char) : List Char :=
  ((l.dropWhile Char.isWhitespace).reverse.dropWhile Char.isWhitespace).reverse

/-- Rust `str::trim` as a `String` operation. -/
def rustTrim (s : String) : String := ⟨trimChars s.data⟩

/-- Query resolution of main.rs:216-221: take `--query` when given,
otherwise the trimmed interactive line (empty when reading stdin failed). -/
def resolveQuery (queryArg stdinLine : Option String) : String :=
  match queryArg with
  | some q => q
  | none => (stdinLine.map rustTrim).getD ""

/-- The user prompt of main.rs:232-235: with a non-empty `--buffer` the
fixed alteration format, otherwise the query verbatim. -/
def buildPrompt (buffer : Option String) (query : String) : String :=
  match buffer with
  | some b =>
    if b ≠ "" then
      "Alter zsh command `" ++ b ++ "` to comply with query `" ++ query ++ "`"
    else query
  | none => query

/-- A whole run of the `complete` subcommand: the lines printed via
`println!`, the `log_entry` call if any, the exit code, and whether
`llm_api_call` was reached.  The orchestrator's result is a parameter. -/
structure CompleteRun where
  stdoutLines : List String
  logged : Option (String × String × String)
  exitCode : Nat
  apiCalled : Bool
  promptUsed : Option String
deriving DecidableEq

/-- The `complete` arm of `main` (main.rs:215-257): resolve the query,
abort on empty input, otherwise dispatch the orchestrator's result. -/
def completeRun (buffer queryArg stdinLine : Option String)
    (api : CallResult) : CompleteRun :=
  let query := resolveQuery queryArg stdinLine
  if query = "" then
    { stdoutLines := ["Completion aborted (empty input)."],
      logged := none, exitCode := 0, apiCalled := false, promptUsed := none }
  else
    let out := completeDispatch query api
    { stdoutLines := [out.stdoutLine], logged := out.logged,
      exitCode := out.exitCode, apiCalled := true,
      promptUsed := some (buildPrompt buffer query) }

/-! ## Credential resolver (main.rs:39-66) -/

/-- The process environment and platform facilities `get_api_key` consults.
`vars` is `env::var` (none = unset); `keychainEntry service user` is the
macOS keychain access: outer `none` when `keyring::Entry::new` fails, inner
option the outcome of `get_password().ok()`. -/
structure Env where
  vars : String → Option String
  isMacos : Bool
  keychainEntry : String → String → Option (Option String)
  username : String

/-- `get_api_key` (main.rs:39-66): the universal override, then the
provider's primary variable with `or_else` fallback to the legacy variable,
each filtered to non-empty, then (macOS only) the keychain. -/
def get_api_key (env : Env) (provider : String) : Option String :=
  match (env.vars "SMSH_API_KEY").filter (fun k => k != "") with
  | some key => some key
  | none =>
    match (if provider = "openai" then
             some ((env.vars "SMSH_OPENAI_API_KEY").orElse
               (fun _ => env.vars "OPENAI_API_KEY"))
           else if provider = "claude" then
             some ((env.vars "SMSH_ANTHROPIC_API_KEY").orElse
               (fun _ => env.vars "ANTHROPIC_API_KEY"))
           else none) with
    | none => none
    | some envRaw =>
      match envRaw.filter (fun k => k != "") with
      | some key => some key
      | none =>
        if env.isMacos then
          match (if provider = "openai" then some "smartshell.openai"
                 else if provider = "claude" then some "smartshell.anthropic"
                 else none) with
          | none => none
          | some service =>
            match env.keychainEntry service env.username with
            | some pw => pw
            | none => none
        else none

/-- Modelled from the claim's words (for comparison with `get_api_key`):
try the four sources strictly in order and return the first present
(set and non-empty) result, absent if every source is absent or empty. -/
def credentialResolverClaim (env : Env) (provider : String) : Option String :=
  let nonEmpty : Option String → Option String :=
    fun v => v.filter (fun k => k != "")
  let primary := if provider = "openai" then "SMSH_OPENAI_API_KEY"
                 else "SMSH_ANTHROPIC_API_KEY"
  let legacy := if provider = "openai" then "OPENAI_API_KEY"
                else "ANTHROPIC_API_KEY"
  let service := if provider = "openai" then "smartshell.openai"
                 else "smartshell.anthropic"
  (nonEmpty (env.vars "SMSH_API_KEY")).orElse fun _ =>
    (nonEmpty (env.vars primary)).orElse fun _ =>
      (nonEmpty (env.vars legacy)).orElse fun _ =>
        if env.isMacos then
          nonEmpty (match env.keychainEntry service env.username with
                    | some pw => pw
                    | none => none)
        else none

/-! ## Log entry (main.rs:68-75) -/

/-- The line `log_entry` writes (main.rs:72), with the timestamp a
parameter: `[<ts>] <cmd> | query: <query> | result: <result>`. -/
def logLine (ts cmd query result : String) : String :=
  "[" ++ ts ++ "] " ++ cmd ++ " | query: " ++ query ++ " | result: " ++ result

/-- Parse a produced log line back into its `query:` and `result:`
segments: the query is the text between the first `" | query: "` and the
first subsequent `" | result: "`; the result is everything after. -/
def parseLogLine (line : String) : Option (String × String) :=
  match splitAtSub (" | query: ").data line.data with
  | none => none
  | some qSide =>
    match splitAtSub (" | result: ").data qSide.2 with
    | none => none
    | some rSide => some (⟨rSide.1⟩, ⟨rSide.2⟩)

/-! ## Claim theorems -/

lemma err_exit_nonzero (q buf m : String) :
    (completeDispatch q (.err m)).exitCode ≠ 0 ∧
    (explainDispatch buf (.err m)).exitCode ≠ 0 := by
  rcases Bool.eq_false_or_eq_true (isInfraError m) with h | h <;>
    simp [completeDispatch, explainDispatch, h]

/-- C1: on the "complete" path, a failure message starting with one of the
infrastructure prefixes ("Request failed", "API error", "Invalid response",
"Missing", "Failed to parse") or containing "API key" is logged with an
"ERROR:" prefix, printed as-is, exit code 1; every other failure is logged
with a "REFUSED:" prefix, printed behind "# ", exit code 2. -/
theorem C1_complete_failure_dispatch (q e : String) :
    (isInfraError e = true →
      completeDispatch q (.err e) =
        { stdoutLine := e, logged := some ("complete", q, "ERROR: " ++ e),
          exitCode := 1 }) ∧
    (isInfraError e = false →
      completeDispatch q (.err e) =
        { stdoutLine := "# " ++ e, logged := some ("complete", q, "REFUSED: " ++ e),
          exitCode := 2 }) := by
  constructor <;> intro h <;> simp [completeDispatch, h]

/-- C1 witness: one infrastructure message and one refusal message. -/
theorem C1_complete_failure_dispatch_witness :
    completeDispatch "q" (.err "Request failed: connection") =
      { stdoutLine := "Request failed: connection",
        logged := some ("complete", "q", "ERROR: Request failed: connection"),
        exitCode := 1 } ∧
    completeDispatch "q" (.err "cannot help") =
      { stdoutLine := "# cannot help",
        logged := some ("complete", "q", "REFUSED: cannot help"),
        exitCode := 2 } :=
  ⟨(C1_complete_failure_dispatch "q" "Request failed: connection").1 (by decide),
   (C1_complete_failure_dispatch "q" "cannot help").2 (by decide)⟩

/-- C2: any structured payload with `error = true` makes both provider
clients fail with the payload's result text as the message, and the
dispatcher then exits non-zero on both the "complete" and "explain" paths. -/
theorem C2_error_true_never_exit_zero (q buf : String) (payload : Json)
    (h : extractedError payload = true) :
    openai_extract payload = .err (extractedResult payload) ∧
    claude_extract payload = .err (extractedResult payload) ∧
    (completeDispatch q (openai_extract payload)).exitCode ≠ 0 ∧
    (explainDispatch buf (openai_extract payload)).exitCode ≠ 0 ∧
    (completeDispatch q (claude_extract payload)).exitCode ≠ 0 ∧
    (explainDispatch buf (claude_extract payload)).exitCode ≠ 0 := by
  have hh : ((payload.getField "error").bind Json.asBool).getD false = true := h
  have ho : openai_extract payload = .err (extractedResult payload) := by
    simp [openai_extract, extractedResult, hh]
  have hc : claude_extract payload = .err (extractedResult payload) := by
    simp [claude_extract, extractedResult, hh]
  rw [ho, hc]
  exact ⟨rfl, rfl, (err_exit_nonzero q buf _).1, (err_exit_nonzero q buf _).2,
    (err_exit_nonzero q buf _).1, (err_exit_nonzero q buf _).2⟩

/-- C2 witness: a concrete payload with `error = true`. -/
theorem C2_error_true_never_exit_zero_witness :
    (completeDispatch "q" (openai_extract
      (Json.obj [("result", Json.str "nope"), ("error", Json.bool true)]))).exitCode ≠ 0 ∧
    (explainDispatch "b" (claude_extract
      (Json.obj [("result", Json.str "nope"), ("error", Json.bool true)]))).exitCode ≠ 0 := by
  have h := C2_error_true_never_exit_zero "q" "b"
    (Json.obj [("result", Json.str "nope"), ("error", Json.bool true)]) (by rfl)
  exact ⟨h.2.2.1, h.2.2.2.2.2⟩

/-- C3: on the "complete" path a successful result starting with '#' is
logged and printed with exit code 1; any other successful result is logged
and printed with exit code 0. -/
theorem C3_complete_success_dispatch (q text : String) :
    (strStartsWith text "#" = true →
      completeDispatch q (.ok text) =
        { stdoutLine := text, logged := some ("complete", q, text),
          exitCode := 1 }) ∧
    (strStartsWith text "#" = false →
      completeDispatch q (.ok text) =
        { stdoutLine := text, logged := some ("complete", q, text),
          exitCode := 0 }) := by
  constructor <;> intro h <;> simp [completeDispatch, h]

/-- C3 witness: one comment-style result and one command result. -/
theorem C3_complete_success_dispatch_witness :
    completeDispatch "q" (.ok "# just a note") =
      { stdoutLine := "# just a note",
        logged := some ("complete", "q", "# just a note"), exitCode := 1 } ∧
    completeDispatch "q" (.ok "ls -a") =
      { stdoutLine := "ls -a", logged := some ("complete", "q", "ls -a"),
        exitCode := 0 } :=
  ⟨(C3_complete_success_dispatch "q" "# just a note").1 (by decide),
   (C3_complete_success_dispatch "q" "ls -a").2 (by decide)⟩

/-- C4: on the "explain" path a success is logged and printed behind "# "
with exit code 0, and any failure is logged with an "ERROR:" prefix,
printed as-is, with exit code 1. -/
theorem C4_explain_dispatch (buf text e : String) :
    explainDispatch buf (.ok text) =
      { stdoutLine := "# " ++ text, logged := some ("explain", buf, text),
        exitCode := 0 } ∧
    explainDispatch buf (.err e) =
      { stdoutLine := e, logged := some ("explain", buf, "ERROR: " ++ e),
        exitCode := 1 } :=
  ⟨rfl, rfl⟩

/-- C5: "complete" with no `--query` and interactive input that trims to
empty prints exactly the abort message, exits 0, reaches no API call and
writes no log entry. -/
theorem C5_complete_empty_input_aborts (buffer stdinLine : Option String)
    (api : CallResult)
    (h : (stdinLine.map rustTrim).getD "" = "") :
    completeRun buffer none stdinLine api =
      { stdoutLines := ["Completion aborted (empty input)."], logged := none,
        exitCode := 0, apiCalled := false, promptUsed := none } := by
  simp [completeRun, resolveQuery, h]

/-- C5 witness: whitespace-only interactive input. -/
theorem C5_complete_empty_input_aborts_witness :
    completeRun none none (some "   ") (.ok "ls") =
      { stdoutLines := ["Completion aborted (empty input)."], logged := none,
        exitCode := 0, apiCalled := false, promptUsed := none } :=
  C5_complete_empty_input_aborts none (some "   ") (.ok "ls") (by decide)

/-- C6: with an absent or empty buffer the prompt is the query verbatim;
with a non-empty buffer it is the fixed alteration format embedding buffer
and query. -/
theorem C6_prompt_builder (query : String) (_hq : query ≠ "") :
    buildPrompt none query = query ∧
    buildPrompt (some "") query = query ∧
    ∀ b : String, b ≠ "" →
      buildPrompt (some b) query =
        "Alter zsh command `" ++ b ++ "` to comply with query `" ++ query ++ "`" :=
  ⟨rfl, by simp [buildPrompt], fun b hb => by simp [buildPrompt, hb]⟩

/-- C6 witness: a concrete query with and without a buffer. -/
theorem C6_prompt_builder_witness :
    buildPrompt none "hidden files" = "hidden files" ∧
    buildPrompt (some "ls") "hidden files" =
      "Alter zsh command `ls` to comply with query `hidden files`" := by
  have h := C6_prompt_builder "hidden files" (by decide)
  exact ⟨h.1, by rw [h.2.2 "ls" (by decide)]; decide⟩

/-- C8: a structured payload lacking the `result` key extracts the empty
string, one lacking the `error` key extracts `false`, and both the OpenAI
and Claude extractions are total, yielding an outcome from those two
extracted values alone. -/
theorem C8_missing_keys_default (payload : Json) :
    (payload.getField "result" = none → extractedResult payload = "") ∧
    (payload.getField "error" = none → extractedError payload = false) ∧
    openai_extract payload =
      (if extractedError payload then .err (extractedResult payload)
       else .ok (extractedResult payload)) ∧
    claude_extract payload =
      (if extractedError payload then .err (extractedResult payload)
       else .ok (extractedResult payload)) := by
  refine ⟨fun h => by simp [extractedResult, h],
    fun h => by simp [extractedError, h], ?_, ?_⟩ <;>
    simp [openai_extract, claude_extract, extractedResult, extractedError]

/-- C8 witness: the empty object payload. -/
theorem C8_missing_keys_default_witness :
    extractedResult (Json.obj []) = "" ∧ extractedError (Json.obj []) = false ∧
    openai_extract (Json.obj []) = .ok "" ∧
    claude_extract (Json.obj []) = .ok "" := by
  have h := C8_missing_keys_default (Json.obj [])
  exact ⟨h.1 rfl, h.2.1 rfl, by rw [h.2.2.1]; rfl, by rw [h.2.2.2]; rfl⟩

/-- Environment exhibiting the legacy-variable masking in `get_api_key`:
the universal override is unset, the provider-specific variable is set but
empty, the legacy variable holds a key, and there is no macOS keychain. -/
def envC7 : Env :=
  { vars := fun name =>
      if name = "SMSH_OPENAI_API_KEY" then some ""
      else if name = "OPENAI_API_KEY" then some "legacy-key"
      else none,
    isMacos := false,
    keychainEntry := fun _ _ => none,
    username := "user" }

/-- C7 counterexample: with `SMSH_OPENAI_API_KEY` set but empty and
`OPENAI_API_KEY` holding a key, the source returns absent, while the
claimed source-by-source order would return the legacy key: the set-but-
empty provider variable masks the legacy variable, because `or_else` runs
before the non-empty filter. -/
theorem C7_credential_order_counterexample :
    get_api_key envC7 "openai" = none ∧
    credentialResolverClaim envC7 "openai" = some "legacy-key" :=
  ⟨rfl, rfl⟩

/-- C7 amended: the resolver tries the universal override (empty treated
as absent), then the provider-specific variable with fallback to the legacy
variable only when the provider-specific one is entirely unset — the
combined value is then treated as absent when empty — and finally, on macOS
only, the keychain, whose value is returned without an emptiness check. -/
theorem C7_credential_order_amended (env : Env) :
    (get_api_key env "openai" =
      ((env.vars "SMSH_API_KEY").filter (fun k => k != "")).orElse (fun _ =>
        ((((env.vars "SMSH_OPENAI_API_KEY").orElse
              (fun _ => env.vars "OPENAI_API_KEY")).filter
            (fun k => k != "")).orElse (fun _ =>
          if env.isMacos then
            match env.keychainEntry "smartshell.openai" env.username with
            | some pw => pw
            | none => none
          else none)))) ∧
    (get_api_key env "claude" =
      ((env.vars "SMSH_API_KEY").filter (fun k => k != "")).orElse (fun _ =>
        ((((env.vars "SMSH_ANTHROPIC_API_KEY").orElse
              (fun _ => env.vars "ANTHROPIC_API_KEY")).filter
            (fun k => k != "")).orElse (fun _ =>
          if env.isMacos then
            match env.keychainEntry "smartshell.anthropic" env.username with
            | some pw => pw
            | none => none
          else none)))) := by
  constructor
  · cases hu : (env.vars "SMSH_API_KEY").filter (fun k => k != "") with
    | some key => simp [get_api_key, hu]
    | none =>
      cases he : ((env.vars "SMSH_OPENAI_API_KEY").orElse
          (fun _ => env.vars "OPENAI_API_KEY")).filter (fun k => k != "") with
      | some key => simp [get_api_key, hu, he]
      | none => simp [get_api_key, hu, he]
  · cases hu : (env.vars "SMSH_API_KEY").filter (fun k => k != "") with
    | some key => simp [get_api_key, hu]
    | none =>
      cases he : ((env.vars "SMSH_ANTHROPIC_API_KEY").orElse
          (fun _ => env.vars "ANTHROPIC_API_KEY")).filter (fun k => k != "") with
      | some key => simp [get_api_key, hu, he]
      | none => simp [get_api_key, hu, he]

/-- C9 counterexample: two different (query, result) pairs produce the very
same log line, so no parsing of the line's segments can reconstruct both
pairs; the round-trip fails for queries containing the separator. -/
theorem C9_log_roundtrip_counterexample :
    logLine "2024-01-01 00:00:00" "complete" "a | result: b" "c" =
      logLine "2024-01-01 00:00:00" "complete" "a" "b | result: c" ∧
    ("a | result: b", "c") ≠ (("a" : String), ("b | result: c" : String)) :=
  ⟨by decide, by decide⟩

/-- C9 amended: for query and result without newlines, when the query does
not contain the substring " | result:", splitting the produced line at the
first " | query: " and then at the first " | result: " reconstructs the
original query and result exactly (the timestamp and operation name never
contain '|'). -/
theorem C9_log_roundtrip_amended (ts cmd q r : String)
    (hts : '|' ∉ ts.data) (hcmd : '|' ∉ cmd.data)
    (hq : hasSub (" | result:").data q.data = false)
    (_hqn : '\n' ∉ q.data) (_hrn : '\n' ∉ r.data) :
    parseLogLine (logLine ts cmd q r) = some (q, r) := by
  have hdata : (logLine ts cmd q r).data =
      ("[".data ++ ts.data ++ "] ".data ++ cmd.data) ++
        ((" | query: ").data ++
          (q.data ++ ((" | result: ").data ++ r.data))) := by
    simp [logLine, String.data_append, List.append_assoc]
  have hpa : '|' ∉ "[".data ++ ts.data ++ "] ".data ++ cmd.data := by
    intro hmem
    simp only [List.mem_append] at hmem
    rcases hmem with ((h | h) | h) | h
    · exact absurd h (by decide)
    · exact hts h
    · exact absurd h (by decide)
    · exact hcmd h
  have hq2 : hasSub ((" | query: ").data.take 2)
      ("[".data ++ ts.data ++ "] ".data ++ cmd.data) = false := by
    have hpt : (" | query: ").data.take 2 = [' ', '|'] := by decide
    rw [hpt]
    exact hasSub_false_of_char _ _ '|' (by decide) hpa
  have h1 : splitAtSub (" | query: ").data
      (("[".data ++ ts.data ++ "] ".data ++ cmd.data) ++
        ((" | query: ").data ++
          (q.data ++ ((" | result: ").data ++ r.data)))) =
      some ("[".data ++ ts.data ++ "] ".data ++ cmd.data,
        q.data ++ ((" | result: ").data ++ r.data)) :=
    splitAtSub_boundary _ _ _
      (no_straddle _ 2 _ _ (by decide)
        (by intro k hk1 hk2
            have hke : k = 1 := by omega
            subst hke; decide)
        hq2)
  have hq10 : hasSub ((" | result: ").data.take 10) q.data = false := by
    have hpt : (" | result: ").data.take 10 = (" | result:").data := by decide
    rw [hpt]; exact hq
  have h2 : splitAtSub (" | result: ").data
      (q.data ++ ((" | result: ").data ++ r.data)) = some (q.data, r.data) :=
    splitAtSub_boundary _ _ _
      (no_straddle _ 10 _ _ (by decide)
        (by intro k hk1 hk2
            interval_cases k <;> decide)
        hq10)
  simp only [parseLogLine, hdata, h1, h2]

/-- C9 witness: a realistic query and result round-trip through the log. -/
theorem C9_log_roundtrip_amended_witness :
    parseLogLine (logLine "2024-01-01 00:00:00" "complete" "hidden files" "ls -a") =
      some ("hidden files", "ls -a") :=
  C9_log_roundtrip_amended "2024-01-01 00:00:00" "complete" "hidden files" "ls -a"
    (by decide) (by decide) (by decide) (by decide) (by decide)

lemma pollChannel_replicate (n : Nat) :
    pollChannel (List.replicate n PollEvent.empty ++ [PollEvent.disconnected]) =
      some (.err "Background thread failed") := by
  induction n with
  | zero => rfl
  | succ k ih => simpa [List.replicate_succ, pollChannel] using ih

/-- C10 counterexample: an unrecognized provider value containing
"API key" yields an "Unknown provider:" message that the "complete" path
classifies as an infrastructure error — "ERROR:" log prefix and exit code
1 — not as a refusal with exit code 2 as the claim states. -/
theorem C10_unknown_provider_counterexample :
    selectProviderResult "API key" (.ok "a") (.ok "b") =
      .err "Unknown provider: API key" ∧
    completeDispatch "q" (.err "Unknown provider: API key") =
      { stdoutLine := "Unknown provider: API key",
        logged := some ("complete", "q", "ERROR: Unknown provider: API key"),
        exitCode := 1 } :=
  ⟨by decide, by decide⟩

/-- C10 amended: a channel disconnection makes the orchestrator return
"Background thread failed", which the "complete" path treats as a refusal
(REFUSED: log, "# " stdout, exit 2); the same holds for the
"Unknown provider: ..." message whenever the unrecognized provider value
does not itself contain "API key". -/
theorem C10_disconnect_and_unknown_provider_amended
    (q provider : String) (n : Nat) (openaiR claudeR : CallResult)
    (hp1 : provider ≠ "openai") (hp2 : provider ≠ "claude")
    (hkey : hasSub ("API key").data provider.data = false) :
    pollChannel (List.replicate n PollEvent.empty ++ [PollEvent.disconnected]) =
      some (.err "Background thread failed") ∧
    completeDispatch q (.err "Background thread failed") =
      { stdoutLine := "# " ++ "Background thread failed",
        logged := some ("complete", q, "REFUSED: " ++ "Background thread failed"),
        exitCode := 2 } ∧
    selectProviderResult provider openaiR claudeR =
      .err ("Unknown provider: " ++ provider) ∧
    completeDispatch q (.err ("Unknown provider: " ++ provider)) =
      { stdoutLine := "# " ++ ("Unknown provider: " ++ provider),
        logged := some ("complete", q,
          "REFUSED: " ++ ("Unknown provider: " ++ provider)),
        exitCode := 2 } := by
  have hshort : ∀ pat : List Char,
      pat.length ≤ ("Unknown provider: ").data.length →
      isPre pat ("Unknown provider: ").data = false →
      isPre pat (("Unknown provider: ").data ++ provider.data) = false := by
    intro pat hlen hfix
    cases h : isPre pat (("Unknown provider: ").data ++ provider.data) with
    | false => rfl
    | true =>
      have := isPre_append_left pat _ _ hlen h
      rw [hfix] at this
      exact absurd this (by decide)
  have hAPI : hasSub ("API key").data
      (("Unknown provider: ").data ++ provider.data) =
      hasSub ("API key").data provider.data := by
    have hform : ("API key").data = 'A' :: ['P', 'I', ' ', 'k', 'e', 'y'] := by
      decide
    rw [hform]
    exact hasSub_append_no_head 'A' _ _ _ (by decide)
  have hufalse : isInfraError ("Unknown provider: " ++ provider) = false := by
    simp only [isInfraError, strStartsWith, strContains, String.data_append]
    rw [hshort _ (by decide) (by decide), hshort _ (by decide) (by decide),
      hshort _ (by decide) (by decide), hshort _ (by decide) (by decide),
      hshort _ (by decide) (by decide), hAPI, hkey]
    decide
  have hbg : isInfraError "Background thread failed" = false := by decide
  refine ⟨pollChannel_replicate n, ?_, ?_, ?_⟩
  · simp [completeDispatch, hbg]
  · simp [selectProviderResult, hp1, hp2]
  · simp [completeDispatch, hufalse]

/-- C10 witness: a benign unrecognized provider value and a disconnection
after three empty polls. -/
theorem C10_disconnect_and_unknown_provider_amended_witness :
    pollChannel (List.replicate 3 PollEvent.empty ++ [PollEvent.disconnected]) =
      some (.err "Background thread failed") ∧
    completeDispatch "q" (.err ("Unknown provider: " ++ "foo")) =
      { stdoutLine := "# " ++ ("Unknown provider: " ++ "foo"),
        logged := some ("complete", "q",
          "REFUSED: " ++ ("Unknown provider: " ++ "foo")),
        exitCode := 2 } := by
  have h := C10_disconnect_and_unknown_provider_amended "q" "foo" 3
    (.ok "a") (.ok "b") (by decide) (by decide) (by decide)
  exact ⟨h.1, h.2.2.2⟩

end SmartShell
